import Mathlib

/-!
Shallow embedding of `music_cog.py`: a per-guild audio-queue playback manager.

The embedding follows the source file:
* `Track` models the items flowing through a player's queue.  The `play_`
  command always enqueues a plain dict `\x7bwebpage_url, requester, title\x7d`
  (`create_source` with `download=False`); the loop distinguishes such deferred
  items from already-playable `YTDLSource` objects with an `isinstance` check,
  modelled by the `is_ytdl_source` flag.
* `player_loop` (lines 120-168) is modelled as a trace function from the
  sequence of items the queue will yield to the list of externally observable
  events, with an oracle `ok : Track → Bool` standing for success of the
  external `ytdl.extract_info` call inside `YTDLSource.regather_stream`.
* `MusicState` models the `Music` cog's state: `registry` is the
  `self.players` dict (guild id → player reference), `heap` holds the live
  `MusicPlayer` objects (a player removed from the dict stays alive because the
  running `player_loop` task still references it), and `voice` holds each
  guild's `guild.voice_client` (absent entry = `None`).
* Machine floats (`self.volume`, `vol / 100`) are modelled with `ℚ`; no claim
  depends on floating-point rounding.
-/

namespace MusicCog

/-- An item travelling through a guild queue: either the deferred dict returned
by `create_source(download=False)` (lines 79: `webpage_url`, `requester`,
`title`) or an already-playable `YTDLSource` (flag `is_ytdl_source`). -/
structure Track where
  title : String
  web_url : String
  requester : String
  is_ytdl_source : Bool
deriving DecidableEq, Repr

/-- A playable `YTDLSource` as handed to `voice_client.play`: the track it was
built from plus the `volume` attribute of the `PCMVolumeTransformer`. -/
structure YTDLSource where
  track : Track
  volume : ℚ
deriving DecidableEq, Repr

/-- `YTDLSource.regather_stream` (lines 83-93): re-runs `ytdl.extract_info` on
`data['webpage_url']`, preserving the requester, and wraps the refreshed data
in a playable source.  The external extractor's success is the oracle `ok`;
failure corresponds to the exception caught at line 139. -/
def regather_stream (ok : Track → Bool) (t : Track) : Option Track :=
  if ok t then some { t with is_ytdl_source := true } else none

/-- Externally observable events of one `player_loop` task. -/
inductive Ev where
  /-- `source = await self.queue.get()` returned (line 130). -/
  | dequeued (t : Track)
  /-- the failure embed sent at line 145 after `regather_stream` raised. -/
  | regatherFailMsg (t : Track)
  /-- `self._guild.voice_client.play(source, ...)` (line 151). -/
  | playStart (s : YTDLSource)
  /-- the now-playing embed sent at line 157 (`self.np = ...`). -/
  | nowPlayingMsg (s : YTDLSource)
  /-- `await self.next.wait()` returned: playback of `s` finished (line 158). -/
  | completed (s : YTDLSource)
  /-- `source.cleanup()` (line 161). -/
  | sourceCleanup (s : YTDLSource)
  /-- `await self.np.delete()` (line 166, `HTTPException` swallowed). -/
  | npDeleted
  /-- the idle timeout fired: `return self.destroy(self._guild)` (line 132). -/
  | destroyed
deriving DecidableEq, Repr

/-- The events of one successful playback iteration of the loop body
(lines 148-168): start playback, send the now-playing message, wait for the
completion signal, clean the finished source, delete the stale message. -/
def playIteration (s : YTDLSource) : List Ev :=
  [Ev.playStart s, Ev.nowPlayingMsg s, Ev.completed s, Ev.sourceCleanup s,
    Ev.npDeleted]

/-- `MusicPlayer.player_loop` (lines 120-168) as a trace function.  The input
list is the sequence of items `self.queue` will yield, in arrival order; when
it is exhausted the 300-second wait at line 129 times out and the loop destroys
itself (line 132).  `volume` is the stored `self.volume`, applied to each new
source at line 148.  A deferred item is re-resolved through `regather_stream`;
on failure the loop sends a notice and `continue`s (lines 139-146). -/
def player_loop (ok : Track → Bool) (volume : ℚ) : List Track → List Ev
  | [] => [Ev.destroyed]
  | t :: rest =>
    Ev.dequeued t ::
      (if t.is_ytdl_source then
        playIteration { track := t, volume := volume } ++ player_loop ok volume rest
      else
        match regather_stream ok t with
        | some t2 =>
          playIteration { track := t2, volume := volume } ++ player_loop ok volume rest
        | none => Ev.regatherFailMsg t :: player_loop ok volume rest)

/-- The sources handed to `voice_client.play`, in order. -/
def playedSources (tr : List Ev) : List YTDLSource :=
  tr.filterMap fun e =>
    match e with
    | Ev.playStart s => some s
    | _ => none

/-- The titles of the tracks that actually started playing, in order. -/
def playedTitles (tr : List Ev) : List String :=
  tr.filterMap fun e =>
    match e with
    | Ev.playStart s => some s.track.title
    | _ => none

/-- The items discarded with a user-visible failure notice, in order. -/
def failedTracks (tr : List Ev) : List Track :=
  tr.filterMap fun e =>
    match e with
    | Ev.regatherFailMsg t => some t
    | _ => none

/-- The items the loop pulled off the queue, in order. -/
def dequeuedTracks (tr : List Ev) : List Track :=
  tr.filterMap fun e =>
    match e with
    | Ev.dequeued t => some t
    | _ => none

/-- Number of tracks in flight after one event: `playStart` begins playback,
`completed` (the completion signal observed by `next.wait`) ends it. -/
def evDepth (e : Ev) (cur : Nat) : Nat :=
  match e with
  | Ev.playStart _ => cur + 1
  | Ev.completed _ => cur - 1
  | _ => cur

/-- Running maximum of the number of concurrently playing tracks. -/
def maxPlayingAux : List Ev → Nat → Nat → Nat
  | [], _, m => m
  | e :: tr, cur, m => maxPlayingAux tr (evDepth e cur) (max m (evDepth e cur))

/-- Maximum number of tracks ever simultaneously playing in one trace. -/
def maxPlaying (tr : List Ev) : Nat :=
  maxPlayingAux tr 0 0

/-- The fixed idle window of `timeout(300)` at line 129, in seconds. -/
def IDLE_TIMEOUT : Nat := 300

/-- Outcome of the guarded wait at lines 129-130. -/
inductive WaitResult where
  | got (t : Track)
  | timedOut
deriving DecidableEq, Repr

/-- `async with timeout(300): source = await self.queue.get()` for a single
iteration: `q` is the queue contents, `arrival` the delay (seconds) and item of
the next enqueue if the queue is empty.  An item already queued, or arriving
strictly inside the window, is received; otherwise `asyncio.TimeoutError` is
raised (line 131). -/
def dequeueWait (q : List Track) (arrival : Option (Nat × Track)) : WaitResult :=
  match q with
  | t :: _ => WaitResult.got t
  | [] =>
    match arrival with
    | some (d, t) => if d < IDLE_TIMEOUT then WaitResult.got t else WaitResult.timedOut
    | none => WaitResult.timedOut

/-- How one iteration of the loop body can die after a successful dequeue. -/
inductive LoopCrash where
  /-- `self._guild.voice_client.play(...)` raised — in particular the
  `AttributeError` when `voice_client` is `None` (line 151, not guarded). -/
  | playFailed
  /-- `self._channel.send(...)` for the now-playing embed raised
  (line 157, not guarded). -/
  | npSendFailed
  /-- `source.cleanup()` raised (line 161, not guarded). -/
  | sourceCleanupFailed
deriving DecidableEq, Repr

/-- A guild's `guild.voice_client`.  `source` is the source object currently
being streamed (`vc.source`), if any. -/
structure VoiceClient where
  is_connected : Bool
  is_playing : Bool
  is_paused : Bool
  source : Option YTDLSource
deriving DecidableEq, Repr

/-- One iteration of the loop body after `queue.get()` returned `t`
(lines 134-168), with the exception structure of the source made explicit.
Only the `regather_stream` call sits inside a `try/except` (lines 137-146);
the playback start, the now-playing send and `source.cleanup()` are unguarded,
so an exception there escapes the iteration and kills the `player_loop` task
(it is returned as `Except.error`, never reaching the `destroy` path).  `vc`
is `self._guild.voice_client`; when it is `None`, line 151 raises
`AttributeError`.  `npSendRaises` and `cleanupRaises` are oracles for failures
of the two remaining unguarded external calls. -/
def loopIterBody (ok : Track → Bool) (vc : Option VoiceClient)
    (npSendRaises cleanupRaises : Bool) (volume : ℚ) (t : Track) :
    Except LoopCrash (List Ev) :=
  let resolved : Option Track :=
    if t.is_ytdl_source then some t else regather_stream ok t
  match resolved with
  | none => Except.ok [Ev.regatherFailMsg t]
  | some t2 =>
    let s : YTDLSource := { track := t2, volume := volume }
    match vc with
    | none => Except.error LoopCrash.playFailed
    | some _ =>
      if npSendRaises then Except.error LoopCrash.npSendFailed
      else if cleanupRaises then Except.error LoopCrash.sourceCleanupFailed
      else Except.ok (playIteration s)

/-- `MusicPlayer.__init__` state (lines 105-118): the fields of `__slots__`
owned by one player.  `next` is the `asyncio.Event`, `np` the handle of the
last now-playing message. -/
structure MusicPlayer where
  queue : List Track
  next : Bool
  np : Option Nat
  volume : ℚ
  current : Option YTDLSource
deriving DecidableEq, Repr

/-- A freshly constructed `MusicPlayer` (lines 111-116): empty queue, cleared
event, no now-playing message, volume `0.5`, nothing current.  The constructor
also spawns the `player_loop` task (line 118), modelled by the trace function
`player_loop`. -/
def initMusicPlayer : MusicPlayer :=
  { queue := [], next := false, np := none, volume := 1 / 2, current := none }

/-- State of the `Music` cog together with the objects it points at.
`registry` is the `self.players` dict (guild id → player reference); `heap`
holds the live `MusicPlayer` objects, keyed by reference — deleting a
registry entry does not destroy the object, since the running `player_loop`
task still holds it; `voice` maps a guild id to its `guild.voice_client`
(absent entry = `None`). -/
structure MusicState where
  registry : List (Nat × Nat)
  heap : List (Nat × MusicPlayer)
  voice : List (Nat × VoiceClient)
deriving DecidableEq, Repr

/-- Dict lookup on an association list (first binding wins, like a dict with
unique keys). -/
def lookup {α : Type} (k : Nat) (l : List (Nat × α)) : Option α :=
  (l.find? fun p => p.1 == k).map Prod.snd

/-- Number of bindings for key `k`. -/
def countKey {α : Type} (k : Nat) (l : List (Nat × α)) : Nat :=
  (l.filter fun p => p.1 == k).length

/-- A reference not used by any live player object. -/
def freshId (st : MusicState) : Nat :=
  (st.heap.map Prod.fst).foldr (fun a b => max a b) 0 + 1

/-- `Music.cleanup` (lines 184-193): disconnect the guild's voice client,
swallowing the `AttributeError` raised when there is none, then delete the
guild's `self.players` entry, swallowing the `KeyError` when it is absent.
Returns the new state and whether a disconnect actually happened (the
observable side effect). -/
def cleanup (g : Nat) (st : MusicState) : MusicState × Bool :=
  let didDisconnect := (lookup g st.voice).isSome
  ({ st with
      voice := st.voice.filter fun p => !(p.1 == g),
      registry := st.registry.filter fun p => !(p.1 == g) },
    didDisconnect)

/-- `Music.get_player` (lines 218-226): return the guild's player from
`self.players`, or construct a fresh `MusicPlayer` (which also starts its
`player_loop` task) and insert it. -/
def get_player (g : Nat) (st : MusicState) : MusicState × Nat :=
  match lookup g st.registry with
  | some pid => (st, pid)
  | none =>
    let pid := freshId st
    ({ st with
        registry := (g, pid) :: st.registry,
        heap := (pid, initMusicPlayer) :: st.heap },
      pid)

/-- The user-visible messages the commands send. -/
inductive Msg where
  /-- the "Added ... to the Queue." embed sent by `create_source` (line 72). -/
  | addedToQueue (title : String)
  /-- "I am not currently playing anything!". -/
  | notPlaying
  /-- "I am not currently connected to voice!". -/
  | notConnectedVoice
  /-- "Please enter a value between 1 and 100.". -/
  | volumeRange
  /-- the "Set the volume to ...%" embed (line 432). -/
  | volumeSet (vol : ℚ)
  /-- the argument-less `await ctx.send()` at line 435. -/
  | emptySend
  /-- "...: Paused the song!". -/
  | pausedMsg
  /-- "...: Resumed the song!". -/
  | resumedMsg
  /-- "...: Skipped the song!". -/
  | skippedMsg
  /-- "There are currently no more queued songs.". -/
  | noQueuedSongs
  /-- the "Upcoming - Next ..." embed with up to five titles (line 367). -/
  | upcoming (titles : List String)
  /-- the "Now Playing: ..." embed sent by the now-playing command (line 401). -/
  | nowPlayingInfo (title : String)
deriving DecidableEq, Repr

/-- `Music.pause_` (lines 285-302).  `vc.pause()` is the external backend
call; its effect is recorded in the `is_paused` flag. -/
def pause_ (vc : Option VoiceClient) : Option VoiceClient × List Msg :=
  match vc with
  | none => (none, [Msg.notPlaying])
  | some w =>
    if !w.is_playing then (some w, [Msg.notPlaying])
    else if w.is_paused then (some w, [])
    else (some { w with is_paused := true }, [Msg.pausedMsg])

/-- `Music.resume_` (lines 304-321). -/
def resume_ (vc : Option VoiceClient) : Option VoiceClient × List Msg :=
  match vc with
  | none => (none, [Msg.notPlaying])
  | some w =>
    if !w.is_connected then (some w, [Msg.notPlaying])
    else if !w.is_paused then (some w, [])
    else (some { w with is_paused := false }, [Msg.resumedMsg])

/-- `Music.skip_` (lines 323-343).  `vc.stop()` forces the completion
callback, ending the current stream. -/
def skip_ (vc : Option VoiceClient) : Option VoiceClient × List Msg :=
  match vc with
  | none => (none, [Msg.notPlaying])
  | some w =>
    if !w.is_connected then (some w, [Msg.notPlaying])
    else if !w.is_paused && !w.is_playing then (some w, [])
    else
      (some { w with is_playing := false, is_paused := false, source := none },
        [Msg.skippedMsg])

/-- `Music.play_` (lines 268-283): get or create the guild's player and
enqueue the deferred descriptor produced by
`create_source(..., download=False)` — always a plain dict, never an already
playable `YTDLSource` (line 79). -/
def play_ (g : Nat) (t : Track) (st : MusicState) : MusicState × List Msg :=
  let gp := get_player g st
  ({ gp.1 with
      heap := gp.1.heap.map fun p =>
        if p.1 == gp.2 then
          (p.1, { p.2 with queue := p.2.queue ++ [{ t with is_ytdl_source := false }] })
        else p },
    [Msg.addedToQueue t.title])

/-- `Music.queue_info` (lines 345-369): guard on the voice connection, then
`get_player` (creating a player if none exists), then report the first five
queued titles (`itertools.islice(..., 0, 5)`). -/
def queue_info (g : Nat) (st : MusicState) : MusicState × List Msg :=
  match lookup g st.voice with
  | none => (st, [Msg.notConnectedVoice])
  | some w =>
    if !w.is_connected then (st, [Msg.notConnectedVoice])
    else
      let gp := get_player g st
      let p := (lookup gp.2 gp.1.heap).getD initMusicPlayer
      if p.queue.isEmpty then (gp.1, [Msg.noQueuedSongs])
      else (gp.1, [Msg.upcoming ((p.queue.take 5).map Track.title)])

/-- Set the `volume` attribute of the source currently streamed by guild
`g`'s voice client (`vc.source.volume = vol / 100`, line 428). -/
def setSourceVolume (g : Nat) (v : ℚ) (st : MusicState) : MusicState :=
  { st with
      voice := st.voice.map fun p =>
        if p.1 == g then
          (p.1, { p.2 with source := p.2.source.map fun s => { s with volume := v } })
        else p }

/-- Set the stored volume of the player object `pid`
(`player.volume = vol / 100`, line 430). -/
def setPlayerVolume (pid : Nat) (v : ℚ) (st : MusicState) : MusicState :=
  { st with
      heap := st.heap.map fun p =>
        if p.1 == pid then (p.1, { p.2 with volume := v }) else p }

/-- A Python exception escaping a command handler. -/
inductive PyError where
  /-- `AttributeError` from an attribute access on `None`. -/
  | attributeError
deriving DecidableEq, Repr

/-- `Music.change_volume` (lines 403-435), faithful to the source's missing
`return` statements: the not-connected branch (line 417) and the out-of-range
branch (line 423) each send their message and then FALL THROUGH.  Execution
then calls `get_player` (creating a player if needed) and reaches `vc.source`
at line 427; when `ctx.voice_client` is `None` that access raises
`AttributeError`, modelled as `Except.error` carrying the state as mutated so
far and the messages already sent.  On the non-raising path the current
source's volume (if any) and the player's stored volume are both set to
`vol / 100`, the confirmation embed is sent, and finally the argument-less
`ctx.send()` of line 435 fires. -/
def change_volume (g : Nat) (vol : ℚ) (st : MusicState) :
    Except (PyError × MusicState × List Msg) (MusicState × List Msg) :=
  let vc := lookup g st.voice
  let msgs1 :=
    match vc with
    | none => [Msg.notConnectedVoice]
    | some w => if !w.is_connected then [Msg.notConnectedVoice] else []
  let msgs2 := if 0 < vol ∧ vol < 101 then [] else [Msg.volumeRange]
  let gp := get_player g st
  match vc with
  | none => Except.error (PyError.attributeError, gp.1, msgs1 ++ msgs2)
  | some w =>
    let st2 := if w.source.isSome then setSourceVolume g (vol / 100) gp.1 else gp.1
    let st3 := setPlayerVolume gp.2 (vol / 100) st2
    Except.ok (st3, msgs1 ++ msgs2 ++ [Msg.volumeSet vol, Msg.emptySend])

/-- `Music.now_playing_` (lines 371-401): guard on the voice connection
(which returns), then `get_player` (creating a player if none exists, line
382); when the player has no current track, report so and return; otherwise
delete the previous now-playing message — the `try` catches only
`discord.HTTPException`, so `player.np` being `None` raises an uncaught
`AttributeError` — then build the embed from `vc.source` (line 397, an
uncaught `AttributeError` when the voice client has no source) and store the
handle of the freshly sent message (`msgId` is the reference the channel
returns) in `player.np`. -/
def now_playing_ (g : Nat) (msgId : Nat) (st : MusicState) :
    Except (PyError × MusicState × List Msg) (MusicState × List Msg) :=
  match lookup g st.voice with
  | none => Except.ok (st, [Msg.notConnectedVoice])
  | some w =>
    if !w.is_connected then Except.ok (st, [Msg.notConnectedVoice])
    else
      let gp := get_player g st
      let p := (lookup gp.2 gp.1.heap).getD initMusicPlayer
      match p.current with
      | none => Except.ok (gp.1, [Msg.notPlaying])
      | some _ =>
        match p.np with
        | none => Except.error (PyError.attributeError, gp.1, [])
        | some _ =>
          match w.source with
          | none => Except.error (PyError.attributeError, gp.1, [])
          | some s =>
            Except.ok
              ({ gp.1 with
                  heap := gp.1.heap.map fun q =>
                    if q.1 == gp.2 then (q.1, { q.2 with np := some msgId }) else q },
                [Msg.nowPlayingInfo s.track.title])

/-- The registry component of a command outcome, whether the handler returned
normally or a Python exception escaped it (the `self.players` mutation done by
`get_player` persists either way). -/
def outcomeRegistry :
    Except (PyError × MusicState × List Msg) (MusicState × List Msg) →
      List (Nat × Nat)
  | Except.ok (st, _) => st.registry
  | Except.error (_, st, _) => st.registry

/-- `Music.stop_` (lines 437-451): guard on the voice connection, then run the
Cleanup Coordinator. -/
def stop_ (g : Nat) (st : MusicState) : MusicState × List Msg :=
  match lookup g st.voice with
  | none => (st, [Msg.notPlaying])
  | some w =>
    if !w.is_connected then (st, [Msg.notPlaying])
    else ((cleanup g st).1, [])

/-! ### Helper lemmas -/

theorem lookup_cons_pos {α : Type} (k : Nat) (p : Nat × α) (l : List (Nat × α))
    (h : p.1 = k) : lookup k (p :: l) = some p.2 := by
  unfold lookup
  rw [List.find?_cons_of_pos]
  · rfl
  · simp [h]

theorem lookup_cons_neg {α : Type} (k : Nat) (p : Nat × α) (l : List (Nat × α))
    (h : ¬ p.1 = k) : lookup k (p :: l) = lookup k l := by
  unfold lookup
  rw [List.find?_cons_of_neg]
  simp [h]

theorem lookup_filter_self {α : Type} (k : Nat) (l : List (Nat × α)) :
    lookup k (l.filter fun p => !(p.1 == k)) = none := by
  induction l with
  | nil => rfl
  | cons p rest ih =>
    by_cases h : p.1 = k
    · rw [List.filter_cons_of_neg (by simp [h])]
      exact ih
    · rw [List.filter_cons_of_pos (by simp [h]), lookup_cons_neg k p _ h]
      exact ih

theorem lookup_filter_ne {α : Type} (k g : Nat) (h : k ≠ g) (l : List (Nat × α)) :
    lookup k (l.filter fun p => !(p.1 == g)) = lookup k l := by
  induction l with
  | nil => rfl
  | cons p rest ih =>
    by_cases hg : p.1 = g
    · have hk : ¬ p.1 = k := fun hc => h (hc ▸ hg)
      rw [List.filter_cons_of_neg (by simp [hg]), lookup_cons_neg k p _ hk]
      exact ih
    · by_cases hk : p.1 = k
      · rw [List.filter_cons_of_pos (by simp [hg]), lookup_cons_pos k p _ hk,
          lookup_cons_pos k p _ hk]
      · rw [List.filter_cons_of_pos (by simp [hg]), lookup_cons_neg k p _ hk,
          lookup_cons_neg k p _ hk]
        exact ih

theorem filter_ne_idem {α : Type} (g : Nat) (l : List (Nat × α)) :
    ((l.filter fun p => !(p.1 == g)).filter fun p => !(p.1 == g)) =
      l.filter fun p => !(p.1 == g) := by
  induction l with
  | nil => rfl
  | cons p rest ih =>
    by_cases hg : p.1 = g
    · rw [List.filter_cons_of_neg (by simp [hg])]
      exact ih
    · rw [List.filter_cons_of_pos (by simp [hg]),
        List.filter_cons_of_pos (by simp [hg]), ih]

theorem lookup_mapUpdate {α : Type} (k : Nat) (f : α → α) (l : List (Nat × α)) :
    lookup k (l.map fun p => if p.1 == k then (p.1, f p.2) else p) =
      (lookup k l).map f := by
  induction l with
  | nil => rfl
  | cons p rest ih =>
    by_cases h : p.1 = k
    · rw [List.map_cons, if_pos (by simp [h]), lookup_cons_pos k _ _ h,
        lookup_cons_pos k (p.1, f p.2) _ h]
      rfl
    · rw [List.map_cons, if_neg (by simp [h]), lookup_cons_neg k p _ h,
        lookup_cons_neg k p _ h]
      exact ih

theorem lookup_mapUpdate_ne {α : Type} (k g : Nat) (h : k ≠ g) (f : α → α)
    (l : List (Nat × α)) :
    lookup k (l.map fun p => if p.1 == g then (p.1, f p.2) else p) = lookup k l := by
  induction l with
  | nil => rfl
  | cons p rest ih =>
    by_cases hg : p.1 = g
    · have hk : ¬ p.1 = k := fun hc => h (hc ▸ hg)
      rw [List.map_cons, if_pos (by simp [hg]),
        lookup_cons_neg k (p.1, f p.2) _ hk, lookup_cons_neg k p _ hk]
      exact ih
    · by_cases hk : p.1 = k
      · rw [List.map_cons, if_neg (by simp [hg]), lookup_cons_pos k p _ hk,
          lookup_cons_pos k p _ hk]
      · rw [List.map_cons, if_neg (by simp [hg]), lookup_cons_neg k p _ hk,
          lookup_cons_neg k p _ hk]
        exact ih

theorem countKey_eq_zero_of_lookup_none {α : Type} (k : Nat) (l : List (Nat × α))
    (h : lookup k l = none) : countKey k l = 0 := by
  induction l with
  | nil => rfl
  | cons p rest ih =>
    by_cases hk : p.1 = k
    · rw [lookup_cons_pos k p _ hk] at h
      exact absurd h (by simp)
    · rw [lookup_cons_neg k p _ hk] at h
      unfold countKey
      rw [List.filter_cons_of_neg (by simp [hk])]
      exact ih h

theorem playedTitles_loop (ok : Track → Bool) (v : ℚ) (q : List Track) :
    playedTitles (player_loop ok v q) =
      (q.filter fun t => t.is_ytdl_source || ok t).map Track.title := by
  induction q with
  | nil => rfl
  | cons t rest ih =>
    cases h1 : t.is_ytdl_source with
    | true =>
      simp only [player_loop, h1, if_pos, playIteration, playedTitles,
        List.filterMap_cons, List.filterMap_append, List.filter_cons, Bool.true_or,
        List.map_cons]
      simpa [playedTitles] using ih
    | false =>
      cases h2 : ok t with
      | true =>
        simp only [player_loop, h1, Bool.false_eq_true, if_false, regather_stream,
          h2, if_pos, playIteration, playedTitles, List.filterMap_cons,
          List.filterMap_append, List.filter_cons, Bool.false_or, List.map_cons]
        simpa [playedTitles] using ih
      | false =>
        simp only [player_loop, h1, Bool.false_eq_true, if_false, regather_stream,
          h2, playedTitles, List.filterMap_cons, List.filter_cons, Bool.false_or]
        simpa [playedTitles] using ih

theorem failedTracks_loop (ok : Track → Bool) (v : ℚ) (q : List Track) :
    failedTracks (player_loop ok v q) =
      q.filter fun t => !(t.is_ytdl_source || ok t) := by
  induction q with
  | nil => rfl
  | cons t rest ih =>
    cases h1 : t.is_ytdl_source with
    | true =>
      simp only [player_loop, h1, if_pos, playIteration, failedTracks,
        List.filterMap_cons, List.filterMap_append, List.filter_cons, Bool.true_or,
        Bool.not_true]
      simpa [failedTracks] using ih
    | false =>
      cases h2 : ok t with
      | true =>
        simp only [player_loop, h1, Bool.false_eq_true, if_false, regather_stream,
          h2, if_pos, playIteration, failedTracks, List.filterMap_cons,
          List.filterMap_append, List.filter_cons, Bool.false_or, Bool.not_true]
        simpa [failedTracks] using ih
      | false =>
        simp only [player_loop, h1, Bool.false_eq_true, if_false, regather_stream,
          h2, failedTracks, List.filterMap_cons, List.filter_cons, Bool.false_or,
          Bool.not_false]
        simpa [failedTracks] using ih

theorem dequeuedTracks_loop (ok : Track → Bool) (v : ℚ) (q : List Track) :
    dequeuedTracks (player_loop ok v q) = q := by
  induction q with
  | nil => rfl
  | cons t rest ih =>
    cases h1 : t.is_ytdl_source with
    | true =>
      simp only [player_loop, h1, if_pos, playIteration, dequeuedTracks,
        List.filterMap_cons, List.filterMap_append]
      simpa [dequeuedTracks] using ih
    | false =>
      cases h2 : ok t with
      | true =>
        simp only [player_loop, h1, Bool.false_eq_true, if_false, regather_stream,
          h2, if_pos, playIteration, dequeuedTracks, List.filterMap_cons,
          List.filterMap_append]
        simpa [dequeuedTracks] using ih
      | false =>
        simp only [player_loop, h1, Bool.false_eq_true, if_false, regather_stream,
          h2, dequeuedTracks, List.filterMap_cons]
        simpa [dequeuedTracks] using ih

theorem playedSources_volume (ok : Track → Bool) (v : ℚ) (q : List Track) :
    ∀ s ∈ playedSources (player_loop ok v q), s.volume = v := by
  induction q with
  | nil => intro s hs; simp [player_loop, playedSources] at hs
  | cons t rest ih =>
    intro s hs
    cases h1 : t.is_ytdl_source with
    | true =>
      simp only [player_loop, h1, if_pos, playIteration, playedSources,
        List.filterMap_cons, List.filterMap_append, List.filterMap_nil,
        List.mem_cons, List.mem_append, List.not_mem_nil, or_false] at hs
      rcases hs with rfl | h
      · rfl
      · exact ih s (by simpa [playedSources] using h)
    | false =>
      cases h2 : ok t with
      | true =>
        simp only [player_loop, h1, Bool.false_eq_true, if_false, regather_stream,
          h2, if_pos, playIteration, playedSources, List.filterMap_cons,
          List.filterMap_append, List.filterMap_nil, List.mem_cons,
          List.mem_append, List.not_mem_nil, or_false] at hs
        rcases hs with rfl | h
        · rfl
        · exact ih s (by simpa [playedSources] using h)
      | false =>
        simp only [player_loop, h1, Bool.false_eq_true, if_false, regather_stream,
          h2, playedSources, List.filterMap_cons] at hs
        exact ih s (by simpa [playedSources] using hs)

theorem maxPlayingAux_playIteration (s : YTDLSource) (tr : List Ev) (m : Nat) :
    maxPlayingAux (playIteration s ++ tr) 0 m = maxPlayingAux tr 0 (max m 1) := by
  show maxPlayingAux tr (1 - 1)
      (max (max (max (max (max m 1) 1) (1 - 1)) (1 - 1)) (1 - 1)) =
    maxPlayingAux tr 0 (max m 1)
  have h1 : (1 : Nat) - 1 = 0 := rfl
  have h2 : max (max (max (max (max m 1) 1) (1 - 1)) (1 - 1)) (1 - 1) = max m 1 := by
    omega
  rw [h1, h2]

theorem maxPlayingAux_loop_le (ok : Track → Bool) (v : ℚ) (q : List Track) :
    ∀ m : Nat, maxPlayingAux (player_loop ok v q) 0 m ≤ max m 1 := by
  induction q with
  | nil =>
    intro m
    show max m 0 ≤ max m 1
    omega
  | cons t rest ih =>
    intro m
    cases h1 : t.is_ytdl_source with
    | true =>
      have e : player_loop ok v (t :: rest) =
          Ev.dequeued t ::
            (playIteration { track := t, volume := v } ++ player_loop ok v rest) := by
        simp [player_loop, h1]
      rw [e]
      show maxPlayingAux
          (playIteration { track := t, volume := v } ++ player_loop ok v rest) 0
          (max m 0) ≤ max m 1
      rw [maxPlayingAux_playIteration]
      exact le_trans (ih (max (max m 0) 1)) (by omega)
    | false =>
      cases h2 : ok t with
      | true =>
        have e : player_loop ok v (t :: rest) =
            Ev.dequeued t ::
              (playIteration { track := { t with is_ytdl_source := true }, volume := v }
                ++ player_loop ok v rest) := by
          simp [player_loop, h1, regather_stream, h2]
        rw [e]
        show maxPlayingAux
            (playIteration { track := { t with is_ytdl_source := true }, volume := v }
              ++ player_loop ok v rest) 0 (max m 0) ≤ max m 1
        rw [maxPlayingAux_playIteration]
        exact le_trans (ih (max (max m 0) 1)) (by omega)
      | false =>
        have e : player_loop ok v (t :: rest) =
            Ev.dequeued t :: Ev.regatherFailMsg t :: player_loop ok v rest := by
          simp [player_loop, h1, regather_stream, h2]
        rw [e]
        show maxPlayingAux (player_loop ok v rest) 0 (max (max m 0) 0) ≤ max m 1
        exact le_trans (ih (max (max m 0) 0)) (by omega)

theorem maxPlaying_loop_le (ok : Track → Bool) (v : ℚ) (q : List Track) :
    maxPlaying (player_loop ok v q) ≤ 1 := by
  have := maxPlayingAux_loop_le ok v q 0
  simpa [maxPlaying] using this

theorem play_appends (g : Nat) (t : Track) (st : MusicState) (pid : Nat)
    (p : MusicPlayer) (hreg : lookup g st.registry = some pid)
    (hp : lookup pid st.heap = some p) :
    lookup pid ((play_ g t st).1).heap =
      some { p with queue := p.queue ++ [{ t with is_ytdl_source := false }] } := by
  unfold play_
  rw [show get_player g st = (st, pid) by simp [get_player, hreg]]
  simp only
  rw [lookup_mapUpdate pid
    (fun q => { q with queue := q.queue ++ [{ t with is_ytdl_source := false }] })
    st.heap, hp]
  rfl

/-! ### Concrete tracks and states used in witnesses and counterexamples -/

def trackA : Track :=
  { title := "A", web_url := "urlA", requester := "alice", is_ytdl_source := false }

def trackB : Track :=
  { title := "B", web_url := "urlB", requester := "bob", is_ytdl_source := false }

def trackC : Track :=
  { title := "C", web_url := "urlC", requester := "cara", is_ytdl_source := false }

/-! ### Claims -/

/-- C1: for every guild and every sequence of tracks enqueued with no
intervening skip or stop, the player loop dequeues and starts them strictly in
enqueue order — the started titles equal the enqueued titles, the dequeue
order equals the enqueue order — and never two tracks play concurrently
(the running-playback count never exceeds one); moreover the play command
appends its track to the back of the guild player's queue. -/
theorem C1_fifo_order (ok : Track → Bool) (v : ℚ) (q : List Track)
    (h : ∀ t ∈ q, t.is_ytdl_source = true ∨ ok t = true) :
    playedTitles (player_loop ok v q) = q.map Track.title ∧
    dequeuedTracks (player_loop ok v q) = q ∧
    maxPlaying (player_loop ok v q) ≤ 1 ∧
    (∀ (g : Nat) (t : Track) (st : MusicState) (pid : Nat) (p : MusicPlayer),
      lookup g st.registry = some pid → lookup pid st.heap = some p →
      lookup pid ((play_ g t st).1).heap =
        some { p with queue := p.queue ++ [{ t with is_ytdl_source := false }] }) := by
  refine ⟨?_, dequeuedTracks_loop ok v q, maxPlaying_loop_le ok v q,
    fun g t st pid p hreg hp => play_appends g t st pid p hreg hp⟩
  rw [playedTitles_loop]
  congr 1
  apply List.filter_eq_self.mpr
  intro t ht
  rcases h t ht with h1 | h1 <;> simp [h1]

/-- C1 witness: three tracks, all resolvable, play as A, B, C with at most one
playing at a time. -/
theorem C1_fifo_order_witness :
    playedTitles (player_loop (fun _ => true) (1 / 2) [trackA, trackB, trackC]) =
      [trackA, trackB, trackC].map Track.title ∧
    dequeuedTracks (player_loop (fun _ => true) (1 / 2) [trackA, trackB, trackC]) =
      [trackA, trackB, trackC] ∧
    maxPlaying (player_loop (fun _ => true) (1 / 2) [trackA, trackB, trackC]) ≤ 1 ∧
    (∀ (g : Nat) (t : Track) (st : MusicState) (pid : Nat) (p : MusicPlayer),
      lookup g st.registry = some pid → lookup pid st.heap = some p →
      lookup pid ((play_ g t st).1).heap =
        some { p with queue := p.queue ++ [{ t with is_ytdl_source := false }] }) :=
  C1_fifo_order (fun _ => true) (1 / 2) [trackA, trackB, trackC]
    (by intro t ht; right; rfl)

/-- C2: an empty queue with no arrival makes the guarded dequeue time out, and
the loop then only destroys itself (no further dequeue or play events);
`destroy` runs the cleanup coordinator, after which the guild is absent from
the registry (and its voice client is gone); an arrival strictly within the
300-second window is received instead of timing out. -/
theorem C2_idle_timeout (ok : Track → Bool) (v : ℚ) :
    player_loop ok v [] = [Ev.destroyed] ∧
    dequeueWait [] none = WaitResult.timedOut ∧
    (∀ (d : Nat) (t : Track), d < IDLE_TIMEOUT →
      dequeueWait [] (some (d, t)) = WaitResult.got t) ∧
    (∀ (g : Nat) (st : MusicState),
      lookup g ((cleanup g st).1).registry = none ∧
      lookup g ((cleanup g st).1).voice = none) := by
  refine ⟨rfl, rfl, ?_, ?_⟩
  · intro d t hd
    simp [dequeueWait, hd]
  · intro g st
    exact ⟨lookup_filter_self g st.registry, lookup_filter_self g st.voice⟩

/-- C2 witness: a track arriving after 5 seconds is received, not timed out. -/
theorem C2_idle_timeout_witness :
    dequeueWait [] (some (5, trackA)) = WaitResult.got trackA :=
  (C2_idle_timeout (fun _ => true) (1 / 2)).2.2.1 5 trackA (by decide)

/-- C3: when stream re-resolution of a dequeued deferred item fails, the loop
emits a failure notice for exactly that item and discards it — the discarded
items are exactly the failing ones in queue order, the started titles are
exactly the resolvable items in queue order (so items after a failing one
still play, in order), and every queued item is still dequeued exactly once. -/
theorem C3_resolution_failure (ok : Track → Bool) (v : ℚ) (q : List Track) :
    (playedTitles (player_loop ok v q) =
      (q.filter fun t => t.is_ytdl_source || ok t).map Track.title) ∧
    (failedTracks (player_loop ok v q) =
      q.filter fun t => !(t.is_ytdl_source || ok t)) ∧
    dequeuedTracks (player_loop ok v q) = q :=
  ⟨playedTitles_loop ok v q, failedTracks_loop ok v q, dequeuedTracks_loop ok v q⟩

/-- C4: cleanup disconnects (no-op when no voice client) and removes the
registry entry (no-op when absent); running it twice sequentially yields the
same state as running it once, the guild is absent afterwards, the second run
does no observable disconnect work, and the first run disconnects exactly when
a voice client existed. -/
theorem C4_cleanup_idempotent (g : Nat) (st : MusicState) :
    cleanup g ((cleanup g st).1) = ((cleanup g st).1, false) ∧
    lookup g ((cleanup g st).1).registry = none ∧
    lookup g ((cleanup g st).1).voice = none ∧
    (cleanup g st).2 = (lookup g st.voice).isSome := by
  refine ⟨?_, lookup_filter_self g st.registry, lookup_filter_self g st.voice, rfl⟩
  simp [cleanup, filter_ne_idem, lookup_filter_self]

/-- A connected, currently-silent voice client. -/
def vcIdle : VoiceClient :=
  { is_connected := true, is_playing := false, is_paused := false, source := none }

/-- The resolved source of `trackA` at the default volume. -/
def srcA : YTDLSource :=
  { track := { trackA with is_ytdl_source := true }, volume := 1 / 2 }

/-- A connected voice client currently streaming `trackA`. -/
def vcPlayingA : VoiceClient :=
  { is_connected := true, is_playing := true, is_paused := false, source := some srcA }

/-- C5 is violated by the code: only the regather call sits in a try/except
(lines 137-146).  In an iteration where the guild's voice client is gone (for
example after an explicit stop disconnected it while items remained queued),
playback start at line 151 raises AttributeError and the exception escapes the
per-iteration body, killing the loop without reaching the destroy path; the
unguarded now-playing send (line 157) and source cleanup (line 161) likewise
crash the loop, whereas a regather failure is caught and merely discards the
item. -/
theorem C5_uncaught_loop_crash :
    loopIterBody (fun _ => true) none false false (1 / 2) trackA =
      Except.error LoopCrash.playFailed ∧
    loopIterBody (fun _ => true) (some vcIdle) true false (1 / 2) trackA =
      Except.error LoopCrash.npSendFailed ∧
    loopIterBody (fun _ => true) (some vcIdle) false true (1 / 2) trackA =
      Except.error LoopCrash.sourceCleanupFailed ∧
    loopIterBody (fun _ => false) none false false (1 / 2) trackA =
      Except.ok [Ev.regatherFailMsg trackA] :=
  ⟨rfl, rfl, rfl, rfl⟩

/-- Guild 1 with a connected, idle voice client and its player (reference 2)
already registered at the default volume. -/
def stVol : MusicState :=
  { registry := [(1, 2)], heap := [(2, initMusicPlayer)], voice := [(1, vcIdle)] }

/-- C6 is violated by the code: the out-of-range branch of `change_volume`
(lines 419-423) sends its rejection message but, lacking a `return`, falls
through and still sets `player.volume = vol / 100`.  Requesting volume 500
therefore both emits the "between 1 and 100" message and sets the stored
volume to 5, outside the claimed interval (0, 1].  The initialization to the
default 0.5 does hold. -/
theorem C6_volume_escapes_range :
    initMusicPlayer.volume = 1 / 2 ∧
    change_volume 1 500 stVol =
      Except.ok
        ({ stVol with heap := [(2, { initMusicPlayer with volume := 500 / 100 })] },
          [Msg.volumeRange, Msg.volumeSet 500, Msg.emptySend]) ∧
    (500 : ℚ) / 100 = 5 ∧
    ¬ (5 : ℚ) ≤ 1 := by
  refine ⟨rfl, rfl, by norm_num, by norm_num⟩

/-- The empty cog state: no players, no voice connections. -/
def stEmpty : MusicState := { registry := [], heap := [], voice := [] }

/-- C7 is violated by the code for `setVolume` only: pause, resume and skip
return the informational message against a guild with no voice client, but
`change_volume` sends its message and then, lacking a `return` at line 417,
reaches `vc.source` at line 427 and raises AttributeError (after having
created a player via `get_player`). -/
theorem C7_commands_without_connection :
    pause_ none = (none, [Msg.notPlaying]) ∧
    resume_ none = (none, [Msg.notPlaying]) ∧
    skip_ none = (none, [Msg.notPlaying]) ∧
    change_volume 3 50 stEmpty =
      Except.error (PyError.attributeError,
        { registry := [(3, 1)], heap := [(1, initMusicPlayer)], voice := [] },
        [Msg.notConnectedVoice]) := by
  refine ⟨rfl, rfl, rfl, rfl⟩

/-- C8: the loop applies the stored player volume to every source it starts
(line 148), and the volume command on a guild whose voice client is connected
and streaming sets both the live source's volume and the player's stored
volume to vol/100 (lines 427-430), leaving every other guild's voice client
and every other player object untouched. -/
theorem C8_volume_persistence (ok : Track → Bool) (v vol : ℚ) (q : List Track)
    (g pid : Nat) (st : MusicState) (w : VoiceClient) (s : YTDLSource)
    (hvc : lookup g st.voice = some w) (hconn : w.is_connected = true)
    (hsrc : w.source = some s) (hreg : lookup g st.registry = some pid)
    (hrange : 0 < vol ∧ vol < 101) :
    (∀ s2 ∈ playedSources (player_loop ok v q), s2.volume = v) ∧
    change_volume g vol st =
      Except.ok (setPlayerVolume pid (vol / 100) (setSourceVolume g (vol / 100) st),
        [Msg.volumeSet vol, Msg.emptySend]) ∧
    lookup g (setPlayerVolume pid (vol / 100) (setSourceVolume g (vol / 100) st)).voice =
      some { w with source := some { s with volume := vol / 100 } } ∧
    lookup pid (setPlayerVolume pid (vol / 100) (setSourceVolume g (vol / 100) st)).heap =
      (lookup pid st.heap).map (fun p => { p with volume := vol / 100 }) ∧
    (∀ g2, g2 ≠ g →
      lookup g2
          (setPlayerVolume pid (vol / 100) (setSourceVolume g (vol / 100) st)).voice =
        lookup g2 st.voice) ∧
    (∀ pid2, pid2 ≠ pid →
      lookup pid2
          (setPlayerVolume pid (vol / 100) (setSourceVolume g (vol / 100) st)).heap =
        lookup pid2 st.heap) := by
  have hload : change_volume g vol st =
      Except.ok (setPlayerVolume pid (vol / 100) (setSourceVolume g (vol / 100) st),
        [Msg.volumeSet vol, Msg.emptySend]) := by
    unfold change_volume
    rw [hvc]
    rw [show get_player g st = (st, pid) by simp [get_player, hreg]]
    simp [hconn, hsrc, hrange]
  refine ⟨playedSources_volume ok v q, hload, ?_, ?_, ?_, ?_⟩
  · show lookup g (setSourceVolume g (vol / 100) st).voice = _
    unfold setSourceVolume
    simp only
    rw [lookup_mapUpdate g
      (fun w2 => { w2 with source := w2.source.map fun s2 => { s2 with volume := vol / 100 } })
      st.voice, hvc]
    simp [hsrc]
  · show lookup pid (setPlayerVolume pid (vol / 100) (setSourceVolume g (vol / 100) st)).heap = _
    unfold setPlayerVolume setSourceVolume
    simp only
    rw [lookup_mapUpdate pid (fun p => { p with volume := vol / 100 }) st.heap]
  · intro g2 hg2
    show lookup g2 (setSourceVolume g (vol / 100) st).voice = _
    unfold setSourceVolume
    simp only
    exact lookup_mapUpdate_ne g2 g hg2
      (fun w2 => { w2 with source := w2.source.map fun s2 => { s2 with volume := vol / 100 } })
      st.voice
  · intro pid2 hpid2
    show lookup pid2 (setPlayerVolume pid (vol / 100) (setSourceVolume g (vol / 100) st)).heap = _
    unfold setPlayerVolume setSourceVolume
    simp only
    exact lookup_mapUpdate_ne pid2 pid hpid2
      (fun p => { p with volume := vol / 100 }) st.heap

/-- Two independent guilds: guild 1 (player 2) streaming `trackA`, guild 9
(player 10) idle. -/
def stTwoGuilds : MusicState :=
  { registry := [(1, 2), (9, 10)],
    heap := [(2, initMusicPlayer), (10, initMusicPlayer)],
    voice := [(1, vcPlayingA), (9, vcIdle)] }

/-- C8 witness: setting guild 1's volume to 30 while `trackA` streams. -/
theorem C8_volume_persistence_witness :
    change_volume 1 30 stTwoGuilds =
      Except.ok
        (setPlayerVolume 2 (30 / 100) (setSourceVolume 1 (30 / 100) stTwoGuilds),
          [Msg.volumeSet 30, Msg.emptySend]) :=
  (C8_volume_persistence (fun _ => true) (1 / 2) 30 [] 1 2 stTwoGuilds vcPlayingA
    srcA rfl rfl rfl rfl (by norm_num)).2.1

/-- Guild 7 has a voice connection but no player yet. -/
def stC9 : MusicState := { registry := [], heap := [], voice := [(7, vcIdle)] }

/-- C9 counterexample: the queue-status command against a guild that has a
voice connection but no player CREATES one — `queue_info` calls `get_player`
(line 356), which inserts a fresh `MusicPlayer` into the registry — refuting
the claim that operations other than a play request never create a player. -/
theorem C9_counterexample :
    lookup 7 stC9.registry = none ∧
    lookup 7 ((queue_info 7 stC9).1).registry = some 1 ∧
    lookup 1 ((queue_info 7 stC9).1).heap = some initMusicPlayer := by
  refine ⟨rfl, rfl, rfl⟩

/-- C9 (amended): a guild's player is created lazily by `get_player`, which
returns the existing player or registers exactly one fresh one, so at most one
player per guild exists at any time; but the play command is not alone in
calling it: queue-status and now-playing create a player once past their
voice-connection guard (their failed guard returns with the registry
unchanged), and the volume command reaches `get_player` even when its
voice-connection guard fails, creating a player unconditionally. -/
theorem C9_lazy_creation (g msgId : Nat) (st : MusicState) :
    (∀ pid, lookup g st.registry = some pid → get_player g st = (st, pid)) ∧
    (lookup g st.registry = none →
      lookup g ((get_player g st).1).registry = some (freshId st) ∧
      lookup (freshId st) ((get_player g st).1).heap = some initMusicPlayer ∧
      (∀ g2, g2 ≠ g →
        lookup g2 ((get_player g st).1).registry = lookup g2 st.registry)) ∧
    countKey g ((get_player g st).1).registry ≤ max 1 (countKey g st.registry) ∧
    (lookup g st.voice = none →
      queue_info g st = (st, [Msg.notConnectedVoice]) ∧
      now_playing_ g msgId st = Except.ok (st, [Msg.notConnectedVoice])) ∧
    (∀ w, lookup g st.voice = some w → w.is_connected = true →
      ((queue_info g st).1).registry = ((get_player g st).1).registry ∧
      outcomeRegistry (now_playing_ g msgId st) = ((get_player g st).1).registry) ∧
    (∀ vol : ℚ,
      outcomeRegistry (change_volume g vol st) = ((get_player g st).1).registry) := by
  refine ⟨?_, ?_, ?_, ?_, ?_, ?_⟩
  · intro pid hreg
    simp [get_player, hreg]
  · intro hreg
    refine ⟨?_, ?_, ?_⟩
    · simp only [get_player, hreg]
      exact lookup_cons_pos g (g, freshId st) st.registry rfl
    · simp only [get_player, hreg]
      exact lookup_cons_pos (freshId st) (freshId st, initMusicPlayer) st.heap rfl
    · intro g2 hg2
      simp only [get_player, hreg]
      exact lookup_cons_neg g2 (g, freshId st) st.registry (fun hc => hg2 hc.symm)
  · cases hreg : lookup g st.registry with
    | some pid =>
      simp only [get_player, hreg]
      exact le_max_right 1 (countKey g st.registry)
    | none =>
      simp only [get_player, hreg]
      have h0 := countKey_eq_zero_of_lookup_none g st.registry hreg
      have : countKey g ((g, freshId st) :: st.registry) = 1 := by
        unfold countKey at h0 ⊢
        rw [List.filter_cons_of_pos (by simp)]
        simp [h0]
      rw [this]
      exact le_max_left 1 (countKey g st.registry)
  · intro hv
    constructor
    · unfold queue_info
      rw [hv]
    · unfold now_playing_
      rw [hv]
  · intro w hw hconn
    constructor
    · unfold queue_info
      rw [hw]
      simp only [hconn, Bool.not_true, Bool.false_eq_true, if_false]
      split <;> rfl
    · unfold now_playing_
      rw [hw]
      simp only [hconn, Bool.not_true, Bool.false_eq_true, if_false]
      split
      · rfl
      · split
        · rfl
        · split <;> rfl
  · intro vol
    cases hv : lookup g st.voice with
    | none => simp [change_volume, outcomeRegistry, hv]
    | some w =>
      cases hs : w.source.isSome <;>
        simp [change_volume, outcomeRegistry, hv, hs, setPlayerVolume,
          setSourceVolume]

/-- C9 amended-claim witness: creating guild 0's player in the empty state
registers exactly the fresh player, and the volume command against the empty
state (no voice connection, failed guard) still leaves a player registered. -/
theorem C9_lazy_creation_witness :
    lookup 0 ((get_player 0 stEmpty).1).registry = some (freshId stEmpty) ∧
    lookup (freshId stEmpty) ((get_player 0 stEmpty).1).heap =
      some initMusicPlayer ∧
    outcomeRegistry (change_volume 0 50 stEmpty) =
      ((get_player 0 stEmpty).1).registry :=
  ⟨((C9_lazy_creation 0 0 stEmpty).2.1 rfl).1,
    ((C9_lazy_creation 0 0 stEmpty).2.1 rfl).2.1,
    (C9_lazy_creation 0 0 stEmpty).2.2.2.2.2 50⟩

/-- Guild 1 connected and streaming `trackA`, its player (reference 2) holding
one further queued item. -/
def stC10 : MusicState :=
  { registry := [(1, 2)],
    heap := [(2, { initMusicPlayer with queue := [trackB] })],
    voice := [(1, vcPlayingA)] }

/-- C10 counterexample: after an explicit stop the player object does survive
with its queue intact, but the loop does NOT keep consuming until its idle
timeout: `stop_` removed the voice client, so the very next iteration that
dequeues the retained item crashes at playback start (`voice_client.play` on
`None`, line 151) instead of playing it or reaching the timeout path. -/
theorem C10_counterexample :
    lookup 1 ((stop_ 1 stC10).1).voice = none ∧
    lookup 2 ((stop_ 1 stC10).1).heap =
      some { initMusicPlayer with queue := [trackB] } ∧
    loopIterBody (fun _ => true) none false false (1 / 2) trackB =
      Except.error LoopCrash.playFailed := by
  refine ⟨rfl, rfl, rfl⟩

/-- C10 (amended): cleanup only disconnects the voice client and removes the
guild's registry entry — the player heap is untouched (no queue cleared, no
current/volume/completion-event reset; the loop task is not cancelled), and
the same holds for the stop command; other guilds' registry and voice entries
are untouched; a surviving loop whose queue stays empty still runs to its own
idle timeout and destroy, but an iteration that dequeues a retained item
crashes at playback start because the voice client is gone. -/
theorem C10_cleanup_frame (g : Nat) (st : MusicState) (ok : Track → Bool)
    (v : ℚ) :
    ((cleanup g st).1).heap = st.heap ∧
    ((stop_ g st).1).heap = st.heap ∧
    (∀ g2, g2 ≠ g →
      lookup g2 ((cleanup g st).1).registry = lookup g2 st.registry ∧
      lookup g2 ((cleanup g st).1).voice = lookup g2 st.voice) ∧
    player_loop ok v [] = [Ev.destroyed] ∧
    (∀ t : Track,
      loopIterBody ok none false false v t =
        if t.is_ytdl_source || ok t then Except.error LoopCrash.playFailed
        else Except.ok [Ev.regatherFailMsg t]) := by
  refine ⟨rfl, ?_, ?_, rfl, ?_⟩
  · unfold stop_
    cases hv : lookup g st.voice with
    | none => rfl
    | some w =>
      cases hc : w.is_connected with
      | false => simp [hc]
      | true => simp [hc, cleanup]
  · intro g2 hg2
    exact ⟨lookup_filter_ne g2 g hg2 st.registry, lookup_filter_ne g2 g hg2 st.voice⟩
  · intro t
    cases h1 : t.is_ytdl_source with
    | true => simp [loopIterBody, h1]
    | false =>
      cases h2 : ok t with
      | true => simp [loopIterBody, regather_stream, h1, h2]
      | false => simp [loopIterBody, regather_stream, h1, h2]

/-- C10 amended-claim witness: concrete frame check after stopping guild 1. -/
theorem C10_cleanup_frame_witness :
    lookup 5 ((cleanup 1 stC10).1).registry = lookup 5 stC10.registry ∧
    lookup 5 ((cleanup 1 stC10).1).voice = lookup 5 stC10.voice :=
  (C10_cleanup_frame 1 stC10 (fun _ => true) (1 / 2)).2.2.1 5 (by decide)

end MusicCog
